import Mathlib

/-!
Shallow embedding of the Streamlit company-research wizard (`src/main.py`)
and proofs of the specification claims about it.

The program is a three-stage wizard:
* `welcome_screen` (Intake): parses a multi-line text area into a list of
  company names and advances the session to the selection stage;
* `select_companies` (Disambiguation): per name, queries the Companies House
  search endpoint, shows up to five candidates in a selectbox, and on
  "Confirm" snapshots the name ↦ company-number map into session state;
* `show_company_details` (Aggregation/Presentation): per confirmed company,
  fetches the registry record, optionally officers, news articles, and an
  LLM summary, rendering each into a tab.

External HTTP calls and LLM calls are modelled as oracle functions passed in
as parameters; a `Except.error` result models a raised
`requests.exceptions.RequestException` (or any exception for the summary
call).  Streamlit widget state (text input, selectbox choices, multiselect
choices, button presses) is modelled as explicit function arguments.
-/

set_option autoImplicit false

namespace CompanyResearch

/-! ### Python string primitives -/

/-- The whitespace set of Python `str.strip()`. -/
def isPyWhitespace (c : Char) : Bool :=
  c = ' ' || c = '\t' || c = '\n' || c = '\r' || c = '\x0b' || c = '\x0c'

/-- Strip leading and trailing whitespace from a character list. -/
def stripChars (l : List Char) : List Char :=
  ((l.dropWhile isPyWhitespace).reverse.dropWhile isPyWhitespace).reverse

/-- Model of Python `str.strip()`. -/
def pyStrip (s : String) : String :=
  String.mk (stripChars s.data)

/-! ### Session state -/

/-- The wizard stage stored in `st.session_state['step']`. -/
inductive Step
  | welcome
  | select_companies
  | show_company_details
  deriving DecidableEq, Repr

/-- The session state the script reads and writes:
`step`, `company_names` and `confirmed_companies` (the latter two are absent
until first assigned, hence `Option`).  `confirmed_companies` is a Python
dict; we model it as an association list with dict insertion semantics. -/
structure SessionState where
  step : Step
  company_names : Option (List String)
  confirmed_companies : Option (List (String × String))
  deriving DecidableEq, Repr

/-- The fresh session: `main` initializes `step` to `'welcome'`. -/
def initialSession : SessionState :=
  { step := Step.welcome, company_names := none, confirmed_companies := none }

/-- User-visible messages emitted by the Intake and Disambiguation screens. -/
inductive UiMsg
  | warningEnterAtLeastOne
  | searchErrorFor (name : String) (e : String)
  | noResultsFor (name : String)
  | apiKeyMissing
  deriving DecidableEq, Repr

/-! ### Intake (`welcome_screen`) -/

/-- Model of Python `str.split('\n')` on the character list: splits at every
newline, never collapsing adjacent separators, and yields `[""]` on the empty
string. -/
def splitOnNewline : List Char → List (List Char)
  | [] => [[]]
  | c :: rest =>
    match splitOnNewline rest with
    | [] => [[]]
    | s :: ss => if c = '\n' then [] :: s :: ss else (c :: s) :: ss

/-- `company_input.strip().split('\n')` followed by
`[name.strip() for name in company_names if name.strip()]`. -/
def intakeNames (company_input : String) : List String :=
  (splitOnNewline (pyStrip company_input).data).filterMap (fun name =>
    let t := String.mk (stripChars name)
    if t = "" then none else some t)

/-- The `Search Companies` button handler of `welcome_screen`: on a nonempty
parsed list it stores the list and advances the stage; otherwise it emits a
warning and leaves the session untouched. -/
def welcome_screen_submit (s : SessionState) (company_input : String) :
    SessionState × List UiMsg :=
  let company_names := intakeNames company_input
  if company_names ≠ [] then
    ({ s with company_names := some company_names, step := Step.select_companies }, [])
  else
    (s, [UiMsg.warningEnterAtLeastOne])

/-! ### Disambiguation (`select_companies`) -/

/-- One item of the Companies House `/search/companies` response. -/
structure SearchItem where
  title : String
  company_number : String
  deriving DecidableEq, Repr

/-- The selectbox label the code builds for a search item. -/
def optionLabel (item : SearchItem) : String :=
  item.title ++ " (Company Number: " ++ item.company_number ++ ")"

/-- The dropdown options: the first five items, formatted. -/
def optionsFor (items : List SearchItem) : List String :=
  (items.take 5).map optionLabel

/-- Python dict assignment `d[k] = v` on an insertion-ordered dict:
an existing key keeps its position and gets the new value, a new key is
appended at the end. -/
def dictInsert : List (String × String) → String → String → List (String × String)
  | [], k, v => [(k, v)]
  | (k0, v0) :: rest, k, v =>
    if k0 = k then (k0, v) :: rest
    else (k0, v0) :: dictInsert rest k v

/-- Mapping the selectbox choice back to a company number:
`selected_index = options.index(selected)` followed by
`items[selected_index].get('company_number')`.  `choice` is the index of the
option the user picked (Streamlit guarantees the selected value is one of
the options; the default is index 0). -/
def selectedCompanyNumber (items : List SearchItem) (choice : Nat) : Option String :=
  let options := optionsFor items
  let selected := options.getD choice ""
  let selected_index := options.indexOf selected
  (items.get? selected_index).map (fun item => item.company_number)

/-- Whether the search oracle yields at least one item for a name. -/
def searchHasResults (search : String → Except String (List SearchItem))
    (name : String) : Bool :=
  match search name with
  | Except.ok items => !items.isEmpty
  | Except.error _ => false

/-- One iteration of the `select_companies` loop for a single requested name,
threading the (dict, messages) accumulator.  A search-request exception is
reported inline and the loop continues (`continue`); an empty result list is
reported inline and the loop continues; otherwise the choice is mapped back
to a company number and stored in the dict. -/
def processName (search : String → Except String (List SearchItem))
    (sel : String → Nat)
    (acc : List (String × String) × List UiMsg)
    (name : String) : List (String × String) × List UiMsg :=
  match search name with
  | Except.error e => (acc.1, acc.2 ++ [UiMsg.searchErrorFor name e])
  | Except.ok items =>
    if items = [] then
      (acc.1, acc.2 ++ [UiMsg.noResultsFor name])
    else
      match selectedCompanyNumber items (sel name) with
      | some number => (dictInsert acc.1 name number, acc.2)
      | none => (acc.1, acc.2)

/-- The `select_companies` screen on the rerun where `Confirm` is pressed.
`chKeyPresent` models whether `companies_house_api_key` is set; when it is
missing and the name list is nonempty, the first loop iteration returns
before the Confirm button is reached.  On confirmation the snapshot dict is
stored and the stage advances. -/
def select_companies_confirm (chKeyPresent : Bool)
    (search : String → Except String (List SearchItem))
    (sel : String → Nat) (s : SessionState) : SessionState × List UiMsg :=
  match s.company_names with
  | none => (s, [])
  | some names =>
    if names ≠ [] ∧ chKeyPresent = false then
      (s, [UiMsg.apiKeyMissing])
    else
      let acc := names.foldl (processName search sel) ([], [])
      ({ s with confirmed_companies := some acc.1, step := Step.show_company_details },
        acc.2)

/-- First-occurrence deduplication with an accumulator of already-seen keys:
the reference order of Python dict keys. -/
def dedupFirstAux (seen : List String) : List String → List String
  | [] => []
  | a :: l => if a ∈ seen then dedupFirstAux seen l else a :: dedupFirstAux (a :: seen) l

/-! ### Aggregation & Presentation (`show_company_details`) -/

/-- The fields of the registry `/company/{number}` record that the code
reads. -/
structure CompanyData where
  company_name : String
  company_status : String
  date_of_creation : String
  registered_office_address : String
  sic_codes : List String
  accounts : String
  deriving DecidableEq, Repr

/-- An officer from `/company/{number}/officers`. -/
structure Officer where
  name : String
  officer_role : String
  deriving DecidableEq, Repr

/-- A news article from the news API. -/
structure Article where
  title : String
  url : String
  description : String
  deriving DecidableEq, Repr

/-- Models `json.dumps(company_data, indent=2)`: a serialization of the
record carrying every field the model tracks. -/
def jsonDumps (cd : CompanyData) : String :=
  "company_name: " ++ cd.company_name ++
  "\ncompany_status: " ++ cd.company_status ++
  "\ndate_of_creation: " ++ cd.date_of_creation ++
  "\nregistered_office_address: " ++ cd.registered_office_address ++
  "\nsic_codes: " ++ String.intercalate ", " cd.sic_codes ++
  "\naccounts: " ++ cd.accounts

/-- The articles block of the summary prompt.  The code guards with
`if 'articles' in locals() and articles:`; `none` models the name not being
bound in `locals()`, `some []` a bound but empty list — both fall through to
the placeholder line. -/
def articlesSection (articles : Option (List Article)) : String :=
  match articles with
  | none => "No recent news articles available.\n"
  | some arts =>
    if arts = [] then "No recent news articles available.\n"
    else
      String.join (arts.map (fun article =>
        "- " ++ article.title ++ ": " ++ article.description ++ "\n"))

/-- The prompt sent to the chat-completion endpoint. -/
def summaryPrompt (company_data : CompanyData) (articles : Option (List Article)) : String :=
  "Provide a 250-word summary for the company " ++ company_data.company_name ++
  " using the following information.\n\n" ++
  "Company Information:\n" ++ jsonDumps company_data ++ "\n\n" ++
  "Recent News Articles:\n" ++ articlesSection articles

/-- One rendered element of a company tab, in order of emission. -/
inductive RenderItem
  | keyMissing
  | detailFetchError (name : String) (e : String)
  | header (company_name : String) (company_number : String)
  | importantInfo (status : String) (date : String) (address : String)
  | sicCodes (codes : List String)
  | accountsJson (accounts : String)
  | officersUnavailable
  | officersList (officers : List Officer)
  | newsLink (title : String) (url : String)
  | noRecentNews
  | newsFetchError
  | summaryText (text : String)
  | summaryError (e : String)
  deriving DecidableEq, Repr

/-- How a company-tab iteration ends: `next` falls through to the next tab;
`halt` models the `return` taken when the API key is missing (the rest of
the function body is skipped); `raised e` models an exception propagating
out of `show_company_details` — the news `requests.get` is the one call not
wrapped in `try/except`. -/
inductive StepOutcome
  | next
  | halt
  | raised (e : String)
  deriving DecidableEq, Repr

/-- The external collaborators and per-company widget state of
`show_company_details`: `detail`, `officersFetch`, `news` and `summarize`
model one HTTP/LLM round-trip each (`Except.error` = raised exception for
`detail`/`officersFetch`/`news`; for `news` the payload is
(status_code, articles) since its status is checked rather than raised);
`extras` is the per-company multiselect value, keyed by company name. -/
structure Oracles where
  chKeyPresent : Bool
  detail : String → Except String CompanyData
  officersFetch : String → Except String (List Officer)
  news : String → Except String (Nat × List Article)
  summarize : String → Except String String
  extras : String → List String

/-- The unconditional items of a tab: header plus the important-information
block, then the SIC-codes and accounts blocks when selected. -/
def baseItems (o : Oracles) (company_name company_number : String)
    (company_data : CompanyData) : List RenderItem :=
  RenderItem.header company_data.company_name company_number ::
  RenderItem.importantInfo company_data.company_status company_data.date_of_creation
    company_data.registered_office_address ::
  ((if "SIC Codes" ∈ o.extras company_name then
      [RenderItem.sicCodes company_data.sic_codes] else []) ++
   (if "Accounts" ∈ o.extras company_name then
      [RenderItem.accountsJson company_data.accounts] else []))

/-- The news block: on HTTP 200 the articles (or a no-news line), otherwise
an inline error line. -/
def newsItemsFor (status : Nat) (arts : List Article) : List RenderItem :=
  if status = 200 then
    if arts = [] then [RenderItem.noRecentNews]
    else arts.map (fun article => RenderItem.newsLink article.title article.url)
  else [RenderItem.newsFetchError]

/-- The summary block: the stripped completion text, or the inline error
written by the `except` handler. -/
def summaryItemFor (summarize : String → Except String String)
    (prompt : String) : RenderItem :=
  match summarize prompt with
  | Except.ok text => RenderItem.summaryText (pyStrip text)
  | Except.error e => RenderItem.summaryError e

/-- The result of rendering one company tab: the emitted items, the value of
the `articles` local after the iteration (`none` = still unbound), and how
the iteration ended. -/
structure TabRender where
  items : List RenderItem
  articlesAfter : Option (List Article)
  outcome : StepOutcome
  deriving DecidableEq, Repr

/-- The news and summary steps of one tab iteration, shared by the two paths
that reach them (officers shown successfully, or officers not selected). -/
def renderAfterOfficers (o : Oracles) (articles : Option (List Article))
    (company_name : String) (company_data : CompanyData)
    (before : List RenderItem) : TabRender :=
  match o.news company_name with
  | Except.error e =>
    { items := before, articlesAfter := articles, outcome := StepOutcome.raised e }
  | Except.ok (status, arts) =>
    let articlesNow := if status = 200 then some arts else articles
    { items := before ++ newsItemsFor status arts ++
        [summaryItemFor o.summarize (summaryPrompt company_data articlesNow)],
      articlesAfter := articlesNow, outcome := StepOutcome.next }

/-- One iteration of the tab loop of `show_company_details` for a single
confirmed company.  `articles` is the value of the `articles` local carried
over from earlier iterations (the code only ever assigns it under
`status_code == 200`, and reads it through `'articles' in locals()`).
The `continue` in the officers `except` handler skips the rest of the tab
body, so an officers fetch failure ends the iteration right after the
inline message. -/
def renderCompany (o : Oracles) (articles : Option (List Article))
    (company_name company_number : String) : TabRender :=
  if o.chKeyPresent = false then
    { items := [RenderItem.keyMissing], articlesAfter := articles,
      outcome := StepOutcome.halt }
  else
    match o.detail company_number with
    | Except.error e =>
      { items := [RenderItem.detailFetchError company_name e],
        articlesAfter := articles, outcome := StepOutcome.next }
    | Except.ok company_data =>
      let base := baseItems o company_name company_number company_data
      if "Officers" ∈ o.extras company_name then
        match o.officersFetch company_number with
        | Except.error _ =>
          { items := base ++ [RenderItem.officersUnavailable],
            articlesAfter := articles, outcome := StepOutcome.next }
        | Except.ok officers =>
          renderAfterOfficers o articles company_name company_data
            (base ++ [RenderItem.officersList officers])
      else
        renderAfterOfficers o articles company_name company_data base

/-- The result of a full render pass: the tabs actually rendered (name and
items), the final value of the `articles` local, and the exception that
escaped the routine, if any. -/
structure RenderResult where
  tabs : List (String × List RenderItem)
  articlesFinal : Option (List Article)
  crash : Option String
  deriving DecidableEq, Repr

/-- The tab loop of `show_company_details` over the confirmed companies,
threading the `articles` local. -/
def renderTabsAux (o : Oracles) :
    Option (List Article) → List (String × String) → RenderResult
  | articles, [] => { tabs := [], articlesFinal := articles, crash := none }
  | articles, (company_name, company_number) :: rest =>
    let t := renderCompany o articles company_name company_number
    match t.outcome with
    | StepOutcome.next =>
      let r := renderTabsAux o t.articlesAfter rest
      { tabs := (company_name, t.items) :: r.tabs,
        articlesFinal := r.articlesFinal, crash := r.crash }
    | StepOutcome.halt =>
      { tabs := [(company_name, t.items)], articlesFinal := t.articlesAfter,
        crash := none }
    | StepOutcome.raised e =>
      { tabs := [(company_name, t.items)], articlesFinal := t.articlesAfter,
        crash := some e }

/-- A full run of the `show_company_details` screen. -/
def show_company_details (o : Oracles) (s : SessionState) : RenderResult :=
  match s.confirmed_companies with
  | none => { tabs := [], articlesFinal := none, crash := none }
  | some companies => renderTabsAux o none companies

/-! ### Auxiliary list lemmas -/

theorem dropWhile_head_false {α : Type} (p : α → Bool) (l : List α) {a : α} {t : List α}
    (h : l.dropWhile p = a :: t) : p a = false := by
  induction l with
  | nil => simp at h
  | cons b l ih =>
    rw [List.dropWhile_cons] at h
    by_cases hb : p b
    · rw [if_pos hb] at h
      exact ih h
    · rw [if_neg hb] at h
      obtain ⟨rfl, rfl⟩ := List.cons.injEq .. ▸ h
      simpa using hb

theorem stripChars_idem (l : List Char) : stripChars (stripChars l) = stripChars l := by
  have hrrev : ∀ (p : Char → Bool) (l : List Char),
      (((l.dropWhile p).reverse.dropWhile p).reverse).dropWhile p
        = ((l.dropWhile p).reverse.dropWhile p).reverse := by
    intro p l
    have hsuff : (l.dropWhile p).reverse.dropWhile p <:+ (l.dropWhile p).reverse :=
      List.dropWhile_suffix p
    have hpre : ((l.dropWhile p).reverse.dropWhile p).reverse <+: l.dropWhile p := by
      have := List.reverse_prefix.mpr hsuff
      rwa [List.reverse_reverse] at this
    match hcase : ((l.dropWhile p).reverse.dropWhile p).reverse with
    | [] => simp
    | a :: t =>
      rw [hcase] at hpre
      obtain ⟨u, hu⟩ := hpre
      have hmhead : l.dropWhile p = a :: (t ++ u) := by
        rw [← hu]
        simp
      have : p a = false := dropWhile_head_false p l hmhead
      simp [List.dropWhile_cons, this]
  unfold stripChars
  rw [hrrev, List.reverse_reverse]
  exact hrrev isPyWhitespace l

theorem pyStrip_idem (s : String) : pyStrip (pyStrip s) = pyStrip s := by
  unfold pyStrip
  rw [show (String.mk (stripChars s.data)).data = stripChars s.data from rfl,
    stripChars_idem]

/-- Every element produced by `intakeNames` is already stripped and nonempty. -/
theorem intakeNames_mem (input : String) (x : String) (hx : x ∈ intakeNames input) :
    pyStrip x = x ∧ x ≠ "" := by
  unfold intakeNames at hx
  rw [List.mem_filterMap] at hx
  obtain ⟨line, _, hline⟩ := hx
  by_cases h : String.mk (stripChars line) = ""
  · simp [h] at hline
  · rw [if_neg h] at hline
    injection hline with hpx
    subst hpx
    refine ⟨?_, h⟩
    show String.mk (stripChars (stripChars line)) = String.mk (stripChars line)
    rw [stripChars_idem]

/-! ### Lemmas about the Disambiguation dictionary -/

theorem dictInsert_keys (m : List (String × String)) (k v : String) :
    (dictInsert m k v).map Prod.fst =
      if k ∈ m.map Prod.fst then m.map Prod.fst else m.map Prod.fst ++ [k] := by
  induction m with
  | nil => simp [dictInsert]
  | cons p rest ih =>
    obtain ⟨k0, v0⟩ := p
    by_cases h : k0 = k
    · subst h
      simp [dictInsert]
    · simp only [dictInsert, if_neg h, List.map_cons]
      rw [ih]
      by_cases hm : k ∈ rest.map Prod.fst
      · simp [hm, List.mem_cons, Ne.symm h]
      · simp [hm, List.mem_cons, Ne.symm h]

theorem dedupFirstAux_congr (s1 s2 : List String) (l : List String)
    (h : ∀ a : String, a ∈ s1 ↔ a ∈ s2) :
    dedupFirstAux s1 l = dedupFirstAux s2 l := by
  induction l generalizing s1 s2 with
  | nil => rfl
  | cons a l ih =>
    simp only [dedupFirstAux]
    by_cases ha : a ∈ s1
    · rw [if_pos ha, if_pos ((h a).mp ha)]
      exact ih s1 s2 h
    · rw [if_neg ha, if_neg (fun hc => ha ((h a).mpr hc))]
      rw [ih (a :: s1) (a :: s2) (fun b => by simp [h b])]

theorem dedupFirstAux_subset (seen l : List String) (x : String)
    (hx : x ∈ dedupFirstAux seen l) : x ∈ l := by
  induction l generalizing seen with
  | nil => simp [dedupFirstAux] at hx
  | cons a l ih =>
    simp only [dedupFirstAux] at hx
    by_cases ha : a ∈ seen
    · rw [if_pos ha] at hx
      exact List.mem_cons_of_mem a (ih seen hx)
    · rw [if_neg ha] at hx
      rcases List.mem_cons.mp hx with h | h
      · exact h ▸ List.mem_cons_self a l
      · exact List.mem_cons_of_mem a (ih (a :: seen) h)

theorem dedupFirstAux_nodup (seen l : List String) :
    (dedupFirstAux seen l).Nodup ∧ ∀ x ∈ dedupFirstAux seen l, x ∉ seen := by
  induction l generalizing seen with
  | nil => simp [dedupFirstAux]
  | cons a l ih =>
    simp only [dedupFirstAux]
    by_cases ha : a ∈ seen
    · rw [if_pos ha]
      exact ih seen
    · rw [if_neg ha]
      obtain ⟨hnd, hns⟩ := ih (a :: seen)
      refine ⟨List.nodup_cons.mpr ⟨fun hmem => ?_, hnd⟩, ?_⟩
      · exact (hns a hmem) (List.mem_cons_self a seen)
      · intro x hx
        rcases List.mem_cons.mp hx with rfl | hx2
        · exact ha
        · intro hxs
          exact (hns x hx2) (List.mem_cons_of_mem a hxs)

/-! ### Lemmas about the selectbox mapping -/

theorem optionsFor_length (items : List SearchItem) :
    (optionsFor items).length = min 5 items.length := by
  simp [optionsFor]

theorem selectedCompanyNumber_some (items : List SearchItem) (choice : Nat)
    (h : choice < (optionsFor items).length) :
    ∃ number, selectedCompanyNumber items choice = some number := by
  simp only [selectedCompanyNumber]
  have hmem : (optionsFor items).getD choice "" ∈ optionsFor items := by
    rw [List.getD_eq_getElem _ _ h]
    exact List.getElem_mem h
  have hidx : (optionsFor items).indexOf ((optionsFor items).getD choice "")
      < (optionsFor items).length :=
    List.indexOf_lt_length.mpr hmem
  have hlen : (optionsFor items).length ≤ items.length := by
    rw [optionsFor_length]
    omega
  have hidx2 : (optionsFor items).indexOf ((optionsFor items).getD choice "")
      < items.length := lt_of_lt_of_le hidx hlen
  rw [List.get?_eq_getElem?, List.getElem?_eq_getElem hidx2]
  exact ⟨_, rfl⟩

theorem selectedCompanyNumber_nodup (items : List SearchItem) (choice : Nat)
    (hnd : (optionsFor items).Nodup) (h : choice < (optionsFor items).length) :
    selectedCompanyNumber items choice
      = (items.get? choice).map (fun item => item.company_number) := by
  simp only [selectedCompanyNumber]
  rw [List.getD_eq_getElem _ _ h, List.indexOf_getElem hnd choice h]

/-! ### The key invariant of the Disambiguation fold -/

theorem foldl_processName_keys
    (search : String → Except String (List SearchItem)) (sel : String → Nat)
    (names : List String) (m : List (String × String)) (msgs : List UiMsg)
    (hok : ∀ n ∈ names, ∃ items, search n = Except.ok items ∧
      (items ≠ [] → sel n < (optionsFor items).length)) :
    ((names.foldl (processName search sel) (m, msgs)).1).map Prod.fst =
      m.map Prod.fst ++
        dedupFirstAux (m.map Prod.fst)
          (names.filter (fun n => searchHasResults search n)) := by
  induction names generalizing m msgs with
  | nil => simp [dedupFirstAux]
  | cons n names ih =>
    obtain ⟨items, hsn, hselv⟩ := hok n (List.mem_cons_self n names)
    have htail : ∀ n2 ∈ names, ∃ items2, search n2 = Except.ok items2 ∧
        (items2 ≠ [] → sel n2 < (optionsFor items2).length) :=
      fun n2 hn2 => hok n2 (List.mem_cons_of_mem n hn2)
    rw [List.foldl_cons]
    by_cases hempty : items = []
    · have hstep : processName search sel (m, msgs) n
          = (m, msgs ++ [UiMsg.noResultsFor n]) := by
        simp [processName, hsn, hempty]
      have hres : searchHasResults search n = false := by
        simp [searchHasResults, hsn, hempty]
      rw [hstep, ih m _ htail]
      simp [List.filter_cons, hres]
    · obtain ⟨number, hnum⟩ := selectedCompanyNumber_some items (sel n) (hselv hempty)
      have hstep : processName search sel (m, msgs) n
          = (dictInsert m n number, msgs) := by
        simp [processName, hsn, hempty, hnum]
      have hres : searchHasResults search n = true := by
        simp [searchHasResults, hsn, hempty]
      rw [hstep, ih _ _ htail]
      rw [List.filter_cons, if_pos (by rw [hres])]
      rw [dictInsert_keys]
      by_cases hin : n ∈ m.map Prod.fst
      · rw [if_pos hin]
        conv_rhs => simp only [dedupFirstAux]
        rw [if_pos hin]
      · rw [if_neg hin]
        conv_rhs => simp only [dedupFirstAux]
        rw [if_neg hin]
        rw [dedupFirstAux_congr (m.map Prod.fst ++ [n]) (n :: m.map Prod.fst) _
          (fun a => by simp [or_comm])]
        simp

/-! ## The claims -/

/-- C1, counterexample: the claim asserts the stored list is deduplicated,
but `welcome_screen` performs no deduplication: the valid two-line input
"Acme\nAcme" is stored as the list ["Acme", "Acme"], which has a duplicate
(and the stage advances regardless). -/
theorem C1_counterexample :
    (welcome_screen_submit initialSession "Acme\nAcme").1.company_names
        = some ["Acme", "Acme"] ∧
    ¬ (["Acme", "Acme"] : List String).Nodup ∧
    (welcome_screen_submit initialSession "Acme\nAcme").1.step
        = Step.select_companies := by
  refine ⟨by decide, by decide, by decide⟩

/-- C1, amended: for every input whose parsed name list is non-empty, the
stored list is exactly the split-trimmed-filtered input (order preserved,
duplicates preserved, no element blank or with surrounding whitespace), no
warning is emitted, and the session advances to the Disambiguation stage. -/
theorem C1_intake_stores_trimmed_list (s : SessionState) (input : String)
    (h : intakeNames input ≠ []) :
    (welcome_screen_submit s input).1.company_names = some (intakeNames input) ∧
    (welcome_screen_submit s input).1.step = Step.select_companies ∧
    (welcome_screen_submit s input).2 = [] ∧
    ∀ x ∈ intakeNames input, pyStrip x = x ∧ x ≠ "" := by
  refine ⟨?_, ?_, ?_, fun x hx => intakeNames_mem input x hx⟩ <;>
    simp [welcome_screen_submit, h]

/-- C1, witness: the amended theorem applied to the concrete input
" Acme \nBeta\nAcme". -/
theorem C1_witness :
    intakeNames " Acme \nBeta\nAcme" ≠ [] ∧
    ((welcome_screen_submit initialSession " Acme \nBeta\nAcme").1.company_names
        = some (intakeNames " Acme \nBeta\nAcme") ∧
      (welcome_screen_submit initialSession " Acme \nBeta\nAcme").1.step
        = Step.select_companies ∧
      (welcome_screen_submit initialSession " Acme \nBeta\nAcme").2 = [] ∧
      ∀ x ∈ intakeNames " Acme \nBeta\nAcme", pyStrip x = x ∧ x ≠ "") :=
  ⟨by decide, C1_intake_stores_trimmed_list initialSession " Acme \nBeta\nAcme" (by decide)⟩

/-- C8: if the parsed name list is empty (pure blank/whitespace input), the
warning is emitted and the session is returned unchanged: no list stored,
no stage change. -/
theorem C8_blank_input_warns_no_transition (s : SessionState) (input : String)
    (h : intakeNames input = []) :
    welcome_screen_submit s input = (s, [UiMsg.warningEnterAtLeastOne]) := by
  simp [welcome_screen_submit, h]

/-- C8, witness: the theorem applied to the whitespace-only input. -/
theorem C8_witness :
    intakeNames "  \n \t " = [] ∧
    welcome_screen_submit initialSession "  \n \t "
      = (initialSession, [UiMsg.warningEnterAtLeastOne]) :=
  ⟨by decide, C8_blank_input_warns_no_transition initialSession "  \n \t " (by decide)⟩

/-- C4: once Disambiguation completes with every search succeeding (and the
selectbox choices valid, which Streamlit guarantees), the keys of the
confirmed map are exactly the requested names with at least one result,
deduplicated in order of first occurrence; zero-result names are absent even
when other names succeeded; and the stage advances. -/
theorem C4_confirmed_keys
    (search : String → Except String (List SearchItem)) (sel : String → Nat)
    (s : SessionState) (names : List String)
    (hnames : s.company_names = some names)
    (hok : ∀ n ∈ names, ∃ items, search n = Except.ok items ∧
      (items ≠ [] → sel n < (optionsFor items).length)) :
    ∃ m, (select_companies_confirm true search sel s).1.confirmed_companies = some m ∧
      m.map Prod.fst
        = dedupFirstAux [] (names.filter (fun n => searchHasResults search n)) ∧
      (m.map Prod.fst).Nodup ∧
      (∀ n, searchHasResults search n = false → n ∉ m.map Prod.fst) ∧
      (select_companies_confirm true search sel s).1.step = Step.show_company_details := by
  have hkeys := foldl_processName_keys search sel names [] [] hok
  simp only [List.map_nil, List.nil_append] at hkeys
  refine ⟨(names.foldl (processName search sel) ([], [])).1, ?_, hkeys, ?_, ?_, ?_⟩
  · simp [select_companies_confirm, hnames]
  · rw [hkeys]
    exact (dedupFirstAux_nodup [] _).1
  · intro n hno hmem
    rw [hkeys] at hmem
    have := dedupFirstAux_subset [] _ n hmem
    rw [List.mem_filter] at this
    rw [hno] at this
    exact Bool.false_ne_true this.2
  · simp [select_companies_confirm, hnames]

/-- C4, witness: two names, the first with two results (choice index 1), the
second with none; the confirmed keys are exactly ["Acme"]. -/
theorem C4_witness :
    (let search : String → Except String (List SearchItem) := fun n =>
      if n = "Acme" then Except.ok [⟨"ACME LTD", "111"⟩, ⟨"ACME PLC", "222"⟩]
      else Except.ok []
    let sel : String → Nat := fun _ => 1
    let s : SessionState :=
      { step := Step.select_companies, company_names := some ["Acme", "Ghost", "Acme"],
        confirmed_companies := none }
    ∃ m, (select_companies_confirm true search sel s).1.confirmed_companies = some m ∧
      m.map Prod.fst
        = dedupFirstAux []
            ((["Acme", "Ghost", "Acme"]).filter (fun n => searchHasResults search n)) ∧
      (m.map Prod.fst).Nodup ∧
      (∀ n, searchHasResults search n = false → n ∉ m.map Prod.fst) ∧
      (select_companies_confirm true search sel s).1.step = Step.show_company_details) :=
  C4_confirmed_keys _ _ _ ["Acme", "Ghost", "Acme"] (by decide)
    (fun n hn => by
      fin_cases hn
      · exact ⟨[⟨"ACME LTD", "111"⟩, ⟨"ACME PLC", "222"⟩], by simp, fun _ => by decide⟩
      · exact ⟨[], by simp, fun hne => absurd rfl hne⟩
      · exact ⟨[⟨"ACME LTD", "111"⟩, ⟨"ACME PLC", "222"⟩], by simp, fun _ => by decide⟩)

/-- C5: for a name with at least one search result, the dropdown presents
exactly `min 5 totalResults` options; and, when the option labels are
pairwise distinct, picking option `choice` is mapped back to the company
number of the search item at that same index. -/
theorem C5_options_mapping (items : List SearchItem) (choice : Nat) :
    (optionsFor items).length = min 5 items.length ∧
    ((optionsFor items).Nodup → choice < (optionsFor items).length →
      selectedCompanyNumber items choice
        = (items.get? choice).map (fun item => item.company_number)) :=
  ⟨optionsFor_length items,
    fun hnd h => selectedCompanyNumber_nodup items choice hnd h⟩

/-- C5, witness: six search items (so only five options are shown) and the
choice of option index 3, which maps back to the fourth company number. -/
theorem C5_witness :
    (optionsFor
        [⟨"A", "1"⟩, ⟨"B", "2"⟩, ⟨"C", "3"⟩, ⟨"D", "4"⟩, ⟨"E", "5"⟩, ⟨"F", "6"⟩]).Nodup ∧
    3 < (optionsFor
        [⟨"A", "1"⟩, ⟨"B", "2"⟩, ⟨"C", "3"⟩, ⟨"D", "4"⟩, ⟨"E", "5"⟩, ⟨"F", "6"⟩]).length ∧
    (optionsFor
        [⟨"A", "1"⟩, ⟨"B", "2"⟩, ⟨"C", "3"⟩, ⟨"D", "4"⟩, ⟨"E", "5"⟩, ⟨"F", "6"⟩]).length
      = min 5 6 ∧
    selectedCompanyNumber
        [⟨"A", "1"⟩, ⟨"B", "2"⟩, ⟨"C", "3"⟩, ⟨"D", "4"⟩, ⟨"E", "5"⟩, ⟨"F", "6"⟩] 3
      = some "4" :=
  ⟨by decide, by decide,
    (C5_options_mapping _ 3).1,
    by
      rw [(C5_options_mapping
        [⟨"A", "1"⟩, ⟨"B", "2"⟩, ⟨"C", "3"⟩, ⟨"D", "4"⟩, ⟨"E", "5"⟩, ⟨"F", "6"⟩] 3).2
        (by decide) (by decide)]
      decide⟩

/-- C9: the confirmation action is idempotent: applying it twice to the same
session, with the same search responses and the same per-name selections,
yields the same session state (in particular the same confirmed map) as
applying it once. -/
theorem C9_confirm_idempotent (chKey : Bool)
    (search : String → Except String (List SearchItem)) (sel : String → Nat)
    (s : SessionState) :
    (select_companies_confirm chKey search sel
        (select_companies_confirm chKey search sel s).1).1
      = (select_companies_confirm chKey search sel s).1 := by
  cases hcn : s.company_names with
  | none => simp [select_companies_confirm, hcn]
  | some names =>
    by_cases hcond : names ≠ [] ∧ chKey = false
    · simp [select_companies_confirm, hcn, hcond]
    · simp [select_companies_confirm, hcn, hcond]

/-! ### Lemmas about the Disambiguation message log -/

theorem processName_split (search : String → Except String (List SearchItem))
    (sel : String → Nat) (acc : List (String × String) × List UiMsg) (n : String) :
    processName search sel acc n
      = ((processName search sel (acc.1, []) n).1,
         acc.2 ++ (processName search sel (acc.1, []) n).2) := by
  cases hsn : search n with
  | error e => simp [processName, hsn]
  | ok items =>
    by_cases he : items = []
    · simp [processName, hsn, he]
    · cases hnum : selectedCompanyNumber items (sel n) with
      | some number => simp [processName, hsn, he, hnum]
      | none => simp [processName, hsn, he, hnum]

theorem foldl_processName_fst_ignores_msgs
    (search : String → Except String (List SearchItem)) (sel : String → Nat)
    (l : List String) :
    ∀ (m : List (String × String)) (msgs1 msgs2 : List UiMsg),
    (l.foldl (processName search sel) (m, msgs1)).1
      = (l.foldl (processName search sel) (m, msgs2)).1 := by
  induction l with
  | nil => intro m msgs1 msgs2; rfl
  | cons n l ih =>
    intro m msgs1 msgs2
    rw [List.foldl_cons, List.foldl_cons,
      processName_split search sel (m, msgs1) n,
      processName_split search sel (m, msgs2) n]
    exact ih _ _ _

theorem foldl_processName_msgs_mono
    (search : String → Except String (List SearchItem)) (sel : String → Nat)
    (l : List String) :
    ∀ (m : List (String × String)) (msgs : List UiMsg),
    ∃ tail, (l.foldl (processName search sel) (m, msgs)).2 = msgs ++ tail := by
  induction l with
  | nil => exact fun m msgs => ⟨[], by simp⟩
  | cons n l ih =>
    intro m msgs
    rw [List.foldl_cons, processName_split search sel (m, msgs) n]
    obtain ⟨tail, htail⟩ :=
      ih (processName search sel (m, []) n).1
        (msgs ++ (processName search sel (m, []) n).2)
    exact ⟨(processName search sel (m, []) n).2 ++ tail, by rw [htail, List.append_assoc]⟩

/-! ### Lemmas about the tab loop -/

theorem renderCompany_detailError (o : Oracles) (articles : Option (List Article))
    (name number e : String)
    (hkey : o.chKeyPresent = true) (hd : o.detail number = Except.error e) :
    renderCompany o articles name number =
      { items := [RenderItem.detailFetchError name e], articlesAfter := articles,
        outcome := StepOutcome.next } := by
  simp [renderCompany, hkey, hd]

theorem renderCompany_officersFail (o : Oracles) (articles : Option (List Article))
    (name number e : String) (cd : CompanyData)
    (hkey : o.chKeyPresent = true) (hd : o.detail number = Except.ok cd)
    (hoff : "Officers" ∈ o.extras name)
    (hof : o.officersFetch number = Except.error e) :
    renderCompany o articles name number =
      { items := baseItems o name number cd ++ [RenderItem.officersUnavailable],
        articlesAfter := articles, outcome := StepOutcome.next } := by
  simp [renderCompany, hkey, hd, hoff, hof]

theorem renderCompany_officersOk (o : Oracles) (articles : Option (List Article))
    (name number : String) (cd : CompanyData) (os : List Officer)
    (hkey : o.chKeyPresent = true) (hd : o.detail number = Except.ok cd)
    (hoff : "Officers" ∈ o.extras name)
    (hof : o.officersFetch number = Except.ok os) :
    renderCompany o articles name number =
      renderAfterOfficers o articles name cd
        (baseItems o name number cd ++ [RenderItem.officersList os]) := by
  simp [renderCompany, hkey, hd, hoff, hof]

theorem renderCompany_noOfficers (o : Oracles) (articles : Option (List Article))
    (name number : String) (cd : CompanyData)
    (hkey : o.chKeyPresent = true) (hd : o.detail number = Except.ok cd)
    (hoff : "Officers" ∉ o.extras name) :
    renderCompany o articles name number =
      renderAfterOfficers o articles name cd (baseItems o name number cd) := by
  simp [renderCompany, hkey, hd, hoff]

theorem renderAfterOfficers_newsOk (o : Oracles) (articles : Option (List Article))
    (name : String) (cd : CompanyData) (before : List RenderItem)
    (status : Nat) (arts : List Article)
    (hn : o.news name = Except.ok (status, arts)) :
    renderAfterOfficers o articles name cd before =
      { items := before ++ newsItemsFor status arts ++
          [summaryItemFor o.summarize
            (summaryPrompt cd (if status = 200 then some arts else articles))],
        articlesAfter := (if status = 200 then some arts else articles),
        outcome := StepOutcome.next } := by
  simp [renderAfterOfficers, hn]

theorem renderAfterOfficers_newsRaise (o : Oracles) (articles : Option (List Article))
    (name : String) (cd : CompanyData) (before : List RenderItem) (e : String)
    (hn : o.news name = Except.error e) :
    renderAfterOfficers o articles name cd before =
      { items := before, articlesAfter := articles,
        outcome := StepOutcome.raised e } := by
  simp [renderAfterOfficers, hn]

theorem renderAfterOfficers_not_halt (o : Oracles) (articles : Option (List Article))
    (name : String) (cd : CompanyData) (before : List RenderItem) :
    (renderAfterOfficers o articles name cd before).outcome ≠ StepOutcome.halt := by
  cases hn : o.news name with
  | error e =>
    rw [renderAfterOfficers_newsRaise o articles name cd before e hn]
    simp
  | ok p =>
    obtain ⟨status, arts⟩ := p
    rw [renderAfterOfficers_newsOk o articles name cd before status arts hn]
    simp

theorem renderCompany_not_halt (o : Oracles) (articles : Option (List Article))
    (name number : String) (hkey : o.chKeyPresent = true) :
    (renderCompany o articles name number).outcome ≠ StepOutcome.halt := by
  cases hd : o.detail number with
  | error e =>
    rw [renderCompany_detailError o articles name number e hkey hd]
    simp
  | ok cd =>
    by_cases hoff : "Officers" ∈ o.extras name
    · cases hof : o.officersFetch number with
      | error e =>
        rw [renderCompany_officersFail o articles name number e cd hkey hd hoff hof]
        simp
      | ok os =>
        rw [renderCompany_officersOk o articles name number cd os hkey hd hoff hof]
        exact renderAfterOfficers_not_halt o articles name cd _
    · rw [renderCompany_noOfficers o articles name number cd hkey hd hoff]
      exact renderAfterOfficers_not_halt o articles name cd _

theorem renderTabsAux_append (o : Oracles) (articles : Option (List Article))
    (l1 l2 : List (String × String))
    (hkey : o.chKeyPresent = true)
    (h1 : (renderTabsAux o articles l1).crash = none) :
    renderTabsAux o articles (l1 ++ l2) =
      { tabs := (renderTabsAux o articles l1).tabs
          ++ (renderTabsAux o (renderTabsAux o articles l1).articlesFinal l2).tabs,
        articlesFinal :=
          (renderTabsAux o (renderTabsAux o articles l1).articlesFinal l2).articlesFinal,
        crash := (renderTabsAux o (renderTabsAux o articles l1).articlesFinal l2).crash } := by
  induction l1 generalizing articles with
  | nil => simp [renderTabsAux]
  | cons c l1 ih =>
    obtain ⟨cname, cnumber⟩ := c
    cases hout : (renderCompany o articles cname cnumber).outcome with
    | next =>
      have hcr : (renderTabsAux o
          (renderCompany o articles cname cnumber).articlesAfter l1).crash = none := by
        simp only [renderTabsAux, hout] at h1
        exact h1
      simp only [List.cons_append, renderTabsAux, hout, List.append_eq]
      rw [ih _ hcr]
    | halt => exact absurd hout (renderCompany_not_halt o articles cname cnumber hkey)
    | raised e =>
      exfalso
      simp only [renderTabsAux, hout] at h1
      exact Option.some_ne_none e h1

theorem processName_error (search : String → Except String (List SearchItem))
    (sel : String → Nat) (acc : List (String × String) × List UiMsg)
    (n e : String) (hs : search n = Except.error e) :
    processName search sel acc n = (acc.1, acc.2 ++ [UiMsg.searchErrorFor n e]) := by
  simp [processName, hs]

theorem renderTabsAux_cons_next (o : Oracles) (articles : Option (List Article))
    (cname cnumber : String) (rest : List (String × String))
    (hout : (renderCompany o articles cname cnumber).outcome = StepOutcome.next) :
    renderTabsAux o articles ((cname, cnumber) :: rest) =
      { tabs := (cname, (renderCompany o articles cname cnumber).items)
          :: (renderTabsAux o (renderCompany o articles cname cnumber).articlesAfter rest).tabs,
        articlesFinal :=
          (renderTabsAux o (renderCompany o articles cname cnumber).articlesAfter rest).articlesFinal,
        crash :=
          (renderTabsAux o (renderCompany o articles cname cnumber).articlesAfter rest).crash } := by
  simp only [renderTabsAux, hout]

theorem renderTabsAux_cons_raised (o : Oracles) (articles : Option (List Article))
    (cname cnumber e : String) (rest : List (String × String))
    (hout : (renderCompany o articles cname cnumber).outcome = StepOutcome.raised e) :
    renderTabsAux o articles ((cname, cnumber) :: rest) =
      { tabs := [(cname, (renderCompany o articles cname cnumber).items)],
        articlesFinal := (renderCompany o articles cname cnumber).articlesAfter,
        crash := some e } := by
  simp only [renderTabsAux, hout]

/-- C2, counterexample: the claim asserts an officer-fetch failure degrades
to an inline message *only*, with the news query and summary still rendered.
In the code the `except` handler ends with `continue`, so for a company with
a working detail fetch, a failing officers fetch, and working news and
summary endpoints, the tab contains the inline message and then stops: no
news item and no summary item is rendered for it. -/
theorem C2_counterexample :
    renderCompany
      { chKeyPresent := true,
        detail := fun _ => Except.ok
          { company_name := "Acme Ltd", company_status := "active",
            date_of_creation := "2000-01-01", registered_office_address := "1 Main St",
            sic_codes := ["62020"], accounts := "acc" },
        officersFetch := fun _ => Except.error "boom",
        news := fun _ => Except.ok (200, [{ title := "T", url := "u", description := "d" }]),
        summarize := fun _ => Except.ok "summary",
        extras := fun _ => ["Officers"] }
      none "Acme Ltd" "123"
    = { items := [RenderItem.header "Acme Ltd" "123",
          RenderItem.importantInfo "active" "2000-01-01" "1 Main St",
          RenderItem.officersUnavailable],
        articlesAfter := none, outcome := StepOutcome.next } := by
  decide

/-- C2, amended: a failure of the officer-list fetch renders the inline
message but then skips the remaining steps of that company's tab — the news
query and the summary are not rendered for it; the failure does not abort
the render pass: the following companies' tabs are rendered exactly as they
would have been without the failing step. -/
theorem C2_officersFailure_skips_tab_rest (o : Oracles)
    (articles : Option (List Article)) (name number e : String) (cd : CompanyData)
    (rest : List (String × String))
    (hkey : o.chKeyPresent = true)
    (hd : o.detail number = Except.ok cd)
    (hoff : "Officers" ∈ o.extras name)
    (hof : o.officersFetch number = Except.error e) :
    renderCompany o articles name number =
      { items := baseItems o name number cd ++ [RenderItem.officersUnavailable],
        articlesAfter := articles, outcome := StepOutcome.next } ∧
    renderTabsAux o articles ((name, number) :: rest) =
      { tabs := (name, baseItems o name number cd ++ [RenderItem.officersUnavailable])
          :: (renderTabsAux o articles rest).tabs,
        articlesFinal := (renderTabsAux o articles rest).articlesFinal,
        crash := (renderTabsAux o articles rest).crash } := by
  have h1 := renderCompany_officersFail o articles name number e cd hkey hd hoff hof
  refine ⟨h1, ?_⟩
  rw [renderTabsAux_cons_next o articles name number rest (by rw [h1]), h1]

/-- C2, witness: the amended theorem at a concrete two-company list whose
first company has a failing officers fetch. -/
theorem C2_witness :
    (let cd0 : CompanyData :=
      { company_name := "Acme Ltd", company_status := "active",
        date_of_creation := "2000-01-01", registered_office_address := "1 Main St",
        sic_codes := [], accounts := "acc" }
    let o : Oracles :=
      { chKeyPresent := true,
        detail := fun _ => Except.ok cd0,
        officersFetch := fun _ => Except.error "boom",
        news := fun _ => Except.ok (200, []),
        summarize := fun _ => Except.ok "summary",
        extras := fun _ => ["Officers"] }
    o.chKeyPresent = true ∧
    o.detail "123" = Except.ok cd0 ∧
    "Officers" ∈ o.extras "Acme Ltd" ∧
    o.officersFetch "123" = Except.error "boom" ∧
    (renderCompany o none "Acme Ltd" "123" =
      { items := baseItems o "Acme Ltd" "123" cd0 ++ [RenderItem.officersUnavailable],
        articlesAfter := none, outcome := StepOutcome.next } ∧
    renderTabsAux o none [("Acme Ltd", "123"), ("Beta", "456")] =
      { tabs := ("Acme Ltd", baseItems o "Acme Ltd" "123" cd0
            ++ [RenderItem.officersUnavailable])
          :: (renderTabsAux o none [("Beta", "456")]).tabs,
        articlesFinal := (renderTabsAux o none [("Beta", "456")]).articlesFinal,
        crash := (renderTabsAux o none [("Beta", "456")]).crash })) :=
  ⟨rfl, rfl, by decide, rfl,
    C2_officersFailure_skips_tab_rest _ none "Acme Ltd" "123" "boom" _
      [("Beta", "456")] rfl rfl (by decide) rfl⟩

/-- C3, counterexample: company "A Ltd" fetches one article with HTTP 200;
company "B Ltd" gets a non-success news status.  With an echoing summary
endpoint, B's rendered summary is the prompt embedding A's article — not the
placeholder the claim requires when no articles were fetched for B. -/
theorem C3_counterexample :
    (let cdB : CompanyData :=
      { company_name := "B Ltd", company_status := "active",
        date_of_creation := "2001-02-03", registered_office_address := "2 Side St",
        sic_codes := [], accounts := "accB" }
    let a1 : Article := { title := "A1", url := "u1", description := "D1" }
    let o : Oracles :=
      { chKeyPresent := true,
        detail := fun number => Except.ok (if number = "2" then cdB else
          { company_name := "A Ltd", company_status := "active",
            date_of_creation := "1999-01-01", registered_office_address := "1 Main St",
            sic_codes := [], accounts := "accA" }),
        officersFetch := fun _ => Except.ok [],
        news := fun name =>
          if name = "A Ltd" then Except.ok (200, [a1]) else Except.ok (500, []),
        summarize := fun prompt => Except.ok prompt,
        extras := fun _ => [] }
    let r := renderTabsAux o none [("A Ltd", "1"), ("B Ltd", "2")]
    r.tabs.map Prod.fst = ["A Ltd", "B Ltd"] ∧
    (r.tabs.getD 1 ("", [])).2.getLast?
      = some (RenderItem.summaryText (pyStrip (summaryPrompt cdB (some [a1])))) ∧
    pyStrip (summaryPrompt cdB (some [a1])) ≠ pyStrip (summaryPrompt cdB none)) := by
  set_option maxRecDepth 10000 in decide

/-- C3, amended: when a tab reaches the news step, the summary prompt embeds
exactly the current company's fetched articles if its news fetch returned
HTTP 200 (placeholder when that list is empty); on a non-success status the
`articles` local keeps its previous value, so the prompt embeds the most
recently fetched articles of an earlier company in the same render pass, or
the placeholder when no earlier fetch succeeded with a nonempty list. -/
theorem C3_prompt_embeds_current_or_stale (o : Oracles)
    (articles : Option (List Article)) (name number : String) (cd : CompanyData)
    (status : Nat) (arts : List Article)
    (hkey : o.chKeyPresent = true)
    (hd : o.detail number = Except.ok cd)
    (hoff : "Officers" ∉ o.extras name)
    (hn : o.news name = Except.ok (status, arts)) :
    renderCompany o articles name number =
      { items := baseItems o name number cd ++ newsItemsFor status arts ++
          [summaryItemFor o.summarize
            (summaryPrompt cd (if status = 200 then some arts else articles))],
        articlesAfter := (if status = 200 then some arts else articles),
        outcome := StepOutcome.next } := by
  rw [renderCompany_noOfficers o articles name number cd hkey hd hoff,
    renderAfterOfficers_newsOk o articles name cd _ status arts hn]

/-- C3, witness: the amended theorem at a company whose news fetch returns
status 500 while a previous company's articles are still in scope. -/
theorem C3_witness :
    (let cd0 : CompanyData :=
      { company_name := "B Ltd", company_status := "active",
        date_of_creation := "2001-02-03", registered_office_address := "2 Side St",
        sic_codes := [], accounts := "accB" }
    let a1 : Article := { title := "A1", url := "u1", description := "D1" }
    let o : Oracles :=
      { chKeyPresent := true,
        detail := fun _ => Except.ok cd0,
        officersFetch := fun _ => Except.ok [],
        news := fun _ => Except.ok (500, []),
        summarize := fun prompt => Except.ok prompt,
        extras := fun _ => [] }
    o.chKeyPresent = true ∧
    o.detail "2" = Except.ok cd0 ∧
    "Officers" ∉ o.extras "B Ltd" ∧
    o.news "B Ltd" = Except.ok (500, []) ∧
    renderCompany o (some [a1]) "B Ltd" "2" =
      { items := baseItems o "B Ltd" "2" cd0 ++ newsItemsFor 500 [] ++
          [summaryItemFor o.summarize
            (summaryPrompt cd0 (if (500 : Nat) = 200 then some [] else some [a1]))],
        articlesAfter := (if (500 : Nat) = 200 then some [] else some [a1]),
        outcome := StepOutcome.next }) :=
  ⟨rfl, rfl, by decide, rfl,
    C3_prompt_embeds_current_or_stale _
      (some [{ title := "A1", url := "u1", description := "D1" }])
      "B Ltd" "2" _ 500 [] rfl rfl (by decide) rfl⟩

/-- C6: a non-success HTTP status from the registry search or the registry
detail fetch is localized to the single item being processed: the failing
name leaves the confirmed dict exactly as if it were skipped while its
inline error is logged and the remaining names are still processed; the
failing company's tab consists of the single inline error item while every
other company's tab is rendered exactly as it would be without the failing
company present, and the render pass continues identically. -/
theorem C6_nonsuccess_localized
    (search : String → Except String (List SearchItem)) (sel : String → Nat)
    (nameBad e : String) (l1 l2 : List String)
    (m : List (String × String)) (msgs : List UiMsg)
    (o : Oracles) (articles : Option (List Article))
    (cnameBad cnumberBad e2 : String) (t1 t2 : List (String × String))
    (hs : search nameBad = Except.error e)
    (hkey : o.chKeyPresent = true)
    (hd : o.detail cnumberBad = Except.error e2)
    (hcrash : (renderTabsAux o articles t1).crash = none) :
    ((l1 ++ nameBad :: l2).foldl (processName search sel) (m, msgs)).1
        = ((l1 ++ l2).foldl (processName search sel) (m, msgs)).1 ∧
    UiMsg.searchErrorFor nameBad e
        ∈ ((l1 ++ nameBad :: l2).foldl (processName search sel) (m, msgs)).2 ∧
    (renderTabsAux o articles (t1 ++ (cnameBad, cnumberBad) :: t2)).tabs
        = (renderTabsAux o articles t1).tabs
          ++ (cnameBad, [RenderItem.detailFetchError cnameBad e2])
          :: (renderTabsAux o (renderTabsAux o articles t1).articlesFinal t2).tabs ∧
    (renderTabsAux o articles (t1 ++ t2)).tabs
        = (renderTabsAux o articles t1).tabs
          ++ (renderTabsAux o (renderTabsAux o articles t1).articlesFinal t2).tabs ∧
    (renderTabsAux o articles (t1 ++ (cnameBad, cnumberBad) :: t2)).crash
        = (renderTabsAux o articles (t1 ++ t2)).crash := by
  have hbadc := renderCompany_detailError o
    (renderTabsAux o articles t1).articlesFinal cnameBad cnumberBad e2 hkey hd
  have hbadcons : renderTabsAux o (renderTabsAux o articles t1).articlesFinal
      ((cnameBad, cnumberBad) :: t2)
      = { tabs := (cnameBad, [RenderItem.detailFetchError cnameBad e2])
            :: (renderTabsAux o (renderTabsAux o articles t1).articlesFinal t2).tabs,
          articlesFinal :=
            (renderTabsAux o (renderTabsAux o articles t1).articlesFinal t2).articlesFinal,
          crash :=
            (renderTabsAux o (renderTabsAux o articles t1).articlesFinal t2).crash } := by
    rw [renderTabsAux_cons_next o _ cnameBad cnumberBad t2 (by rw [hbadc]), hbadc]
  have happ1 := renderTabsAux_append o articles t1 ((cnameBad, cnumberBad) :: t2) hkey hcrash
  have happ2 := renderTabsAux_append o articles t1 t2 hkey hcrash
  refine ⟨?_, ?_, ?_, ?_, ?_⟩
  · rw [List.foldl_append, List.foldl_append, List.foldl_cons,
      processName_error search sel _ nameBad e hs]
    exact foldl_processName_fst_ignores_msgs search sel l2 _ _ _
  · rw [List.foldl_append, List.foldl_cons, processName_error search sel _ nameBad e hs]
    obtain ⟨tail, htail⟩ := foldl_processName_msgs_mono search sel l2
      (l1.foldl (processName search sel) (m, msgs)).1
      ((l1.foldl (processName search sel) (m, msgs)).2
        ++ [UiMsg.searchErrorFor nameBad e])
    rw [htail]
    simp
  · rw [happ1, hbadcons]
  · rw [happ2]
  · rw [happ1, happ2, hbadcons]

/-- C6, witness: the theorem at a concrete run — one failing search among
two succeeding ones, and one failing detail fetch between two rendered
companies. -/
theorem C6_witness :
    (let cd0 : CompanyData :=
      { company_name := "T", company_status := "active",
        date_of_creation := "2000-01-01", registered_office_address := "1 Main St",
        sic_codes := [], accounts := "acc" }
    let search : String → Except String (List SearchItem) := fun n =>
      if n = "BadName" then Except.error "500 Server Error"
      else Except.ok [{ title := "G", company_number := "9" }]
    let sel : String → Nat := fun _ => 0
    let o : Oracles :=
      { chKeyPresent := true,
        detail := fun n => if n = "13" then Except.error "404 Not Found"
          else Except.ok cd0,
        officersFetch := fun _ => Except.ok [],
        news := fun _ => Except.ok (200, []),
        summarize := fun _ => Except.ok "summary",
        extras := fun _ => [] }
    search "BadName" = Except.error "500 Server Error" ∧
    o.chKeyPresent = true ∧
    o.detail "13" = Except.error "404 Not Found" ∧
    (renderTabsAux o none [("T1", "11")]).crash = none ∧
    (((["N1"] ++ "BadName" :: ["N2"]).foldl (processName search sel) ([], [])).1
        = ((["N1"] ++ ["N2"]).foldl (processName search sel) ([], [])).1 ∧
    UiMsg.searchErrorFor "BadName" "500 Server Error"
        ∈ ((["N1"] ++ "BadName" :: ["N2"]).foldl (processName search sel) ([], [])).2 ∧
    (renderTabsAux o none ([("T1", "11")] ++ ("BadCo", "13") :: [("T2", "12")])).tabs
        = (renderTabsAux o none [("T1", "11")]).tabs
          ++ ("BadCo", [RenderItem.detailFetchError "BadCo" "404 Not Found"])
          :: (renderTabsAux o (renderTabsAux o none [("T1", "11")]).articlesFinal
              [("T2", "12")]).tabs ∧
    (renderTabsAux o none ([("T1", "11")] ++ [("T2", "12")])).tabs
        = (renderTabsAux o none [("T1", "11")]).tabs
          ++ (renderTabsAux o (renderTabsAux o none [("T1", "11")]).articlesFinal
              [("T2", "12")]).tabs ∧
    (renderTabsAux o none ([("T1", "11")] ++ ("BadCo", "13") :: [("T2", "12")])).crash
        = (renderTabsAux o none ([("T1", "11")] ++ [("T2", "12")])).crash)) :=
  ⟨by simp, rfl, by simp, by decide,
    C6_nonsuccess_localized _ _ "BadName" "500 Server Error" ["N1"] ["N2"] [] [] _
      none "BadCo" "13" "404 Not Found" [("T1", "11")] [("T2", "12")]
      (by simp) rfl (by simp) (by decide)⟩

/-- C7: an exception from the summary-generation call is caught and rendered
as the inline error item at the end of the tab; the tab iteration ends
normally (`next`, nothing propagates to the caller of the presentation
routine) and the following companies' tabs are still rendered. -/
theorem C7_summary_exception_rendered_inline (o : Oracles)
    (articles : Option (List Article)) (name number e : String) (cd : CompanyData)
    (status : Nat) (arts : List Article) (rest : List (String × String))
    (hkey : o.chKeyPresent = true)
    (hd : o.detail number = Except.ok cd)
    (hoff : "Officers" ∉ o.extras name)
    (hn : o.news name = Except.ok (status, arts))
    (hsum : o.summarize
        (summaryPrompt cd (if status = 200 then some arts else articles))
      = Except.error e) :
    renderCompany o articles name number =
      { items := baseItems o name number cd ++ newsItemsFor status arts ++
          [RenderItem.summaryError e],
        articlesAfter := (if status = 200 then some arts else articles),
        outcome := StepOutcome.next } ∧
    renderTabsAux o articles ((name, number) :: rest) =
      { tabs := (name, baseItems o name number cd ++ newsItemsFor status arts ++
            [RenderItem.summaryError e])
          :: (renderTabsAux o (if status = 200 then some arts else articles) rest).tabs,
        articlesFinal :=
          (renderTabsAux o (if status = 200 then some arts else articles) rest).articlesFinal,
        crash :=
          (renderTabsAux o (if status = 200 then some arts else articles) rest).crash } := by
  have h1 : renderCompany o articles name number =
      { items := baseItems o name number cd ++ newsItemsFor status arts ++
          [RenderItem.summaryError e],
        articlesAfter := (if status = 200 then some arts else articles),
        outcome := StepOutcome.next } := by
    rw [renderCompany_noOfficers o articles name number cd hkey hd hoff,
      renderAfterOfficers_newsOk o articles name cd _ status arts hn]
    simp [summaryItemFor, hsum]
  refine ⟨h1, ?_⟩
  rw [renderTabsAux_cons_next o articles name number rest (by rw [h1]), h1]

/-- C7, witness: the theorem at a concrete company whose summary endpoint
raises, followed by a second company. -/
theorem C7_witness :
    (let cd0 : CompanyData :=
      { company_name := "Acme Ltd", company_status := "active",
        date_of_creation := "2000-01-01", registered_office_address := "1 Main St",
        sic_codes := [], accounts := "acc" }
    let o : Oracles :=
      { chKeyPresent := true,
        detail := fun _ => Except.ok cd0,
        officersFetch := fun _ => Except.ok [],
        news := fun _ => Except.ok (200, []),
        summarize := fun _ => Except.error "api down",
        extras := fun _ => [] }
    o.chKeyPresent = true ∧
    o.detail "123" = Except.ok cd0 ∧
    "Officers" ∉ o.extras "Acme Ltd" ∧
    o.news "Acme Ltd" = Except.ok (200, []) ∧
    o.summarize
        (summaryPrompt cd0 (if (200 : Nat) = 200 then some [] else none))
      = Except.error "api down" ∧
    (renderCompany o none "Acme Ltd" "123" =
      { items := baseItems o "Acme Ltd" "123" cd0 ++ newsItemsFor 200 [] ++
          [RenderItem.summaryError "api down"],
        articlesAfter := (if (200 : Nat) = 200 then some [] else none),
        outcome := StepOutcome.next } ∧
    renderTabsAux o none [("Acme Ltd", "123"), ("Beta", "456")] =
      { tabs := ("Acme Ltd", baseItems o "Acme Ltd" "123" cd0 ++ newsItemsFor 200 [] ++
            [RenderItem.summaryError "api down"])
          :: (renderTabsAux o (if (200 : Nat) = 200 then some [] else none)
              [("Beta", "456")]).tabs,
        articlesFinal := (renderTabsAux o (if (200 : Nat) = 200 then some [] else none)
            [("Beta", "456")]).articlesFinal,
        crash := (renderTabsAux o (if (200 : Nat) = 200 then some [] else none)
            [("Beta", "456")]).crash })) :=
  ⟨rfl, rfl, by decide, rfl, rfl,
    C7_summary_exception_rendered_inline _ none "Acme Ltd" "123" "api down" _
      200 [] [("Beta", "456")] rfl rfl (by decide) rfl rfl⟩

/-- C10: an exception raised by the news request itself is not caught: the
tab stops right before the news section, no news or summary item is rendered
for it, the exception propagates out of the presentation routine, and the
remaining companies' tabs are not rendered at all. -/
theorem C10_news_exception_propagates (o : Oracles)
    (articles : Option (List Article)) (name number e : String) (cd : CompanyData)
    (rest : List (String × String))
    (hkey : o.chKeyPresent = true)
    (hd : o.detail number = Except.ok cd)
    (hoff : "Officers" ∉ o.extras name)
    (hn : o.news name = Except.error e) :
    renderCompany o articles name number =
      { items := baseItems o name number cd, articlesAfter := articles,
        outcome := StepOutcome.raised e } ∧
    renderTabsAux o articles ((name, number) :: rest) =
      { tabs := [(name, baseItems o name number cd)], articlesFinal := articles,
        crash := some e } := by
  have h1 : renderCompany o articles name number =
      { items := baseItems o name number cd, articlesAfter := articles,
        outcome := StepOutcome.raised e } := by
    rw [renderCompany_noOfficers o articles name number cd hkey hd hoff,
      renderAfterOfficers_newsRaise o articles name cd _ e hn]
  refine ⟨h1, ?_⟩
  rw [renderTabsAux_cons_raised o articles name number e rest (by rw [h1]), h1]

/-- C10, witness: a connection failure of the news request for the first of
two companies: the second company's tab is absent from the result. -/
theorem C10_witness :
    (let cd0 : CompanyData :=
      { company_name := "Acme Ltd", company_status := "active",
        date_of_creation := "2000-01-01", registered_office_address := "1 Main St",
        sic_codes := [], accounts := "acc" }
    let o : Oracles :=
      { chKeyPresent := true,
        detail := fun _ => Except.ok cd0,
        officersFetch := fun _ => Except.ok [],
        news := fun _ => Except.error "connection refused",
        summarize := fun _ => Except.ok "summary",
        extras := fun _ => [] }
    o.chKeyPresent = true ∧
    o.detail "123" = Except.ok cd0 ∧
    "Officers" ∉ o.extras "Acme Ltd" ∧
    o.news "Acme Ltd" = Except.error "connection refused" ∧
    (renderCompany o none "Acme Ltd" "123" =
      { items := baseItems o "Acme Ltd" "123" cd0, articlesAfter := none,
        outcome := StepOutcome.raised "connection refused" } ∧
    renderTabsAux o none [("Acme Ltd", "123"), ("Beta", "456")] =
      { tabs := [("Acme Ltd", baseItems o "Acme Ltd" "123" cd0)],
        articlesFinal := none, crash := some "connection refused" })) :=
  ⟨rfl, rfl, by decide, rfl,
    C10_news_exception_propagates _ none "Acme Ltd" "123" "connection refused" _
      [("Beta", "456")] rfl rfl (by decide) rfl⟩

end CompanyResearch
